import Mathlib

/-!
Shallow embedding of `gqlalchemy/query_builder.py`: the clause-segment
variants, the linking validator, the statement assembler (`DeclarativeBase`),
the result-mode flag, the execution facade dispatch and the preset builders,
together with theorems settling the specification claims.
-/

namespace GQL

/-- Python whitespace characters matched by the regex class in
`re.sub("\\s\\s+", " ", ...)` of `DeclarativeBase._construct_query`
(ASCII range). -/
def isPySpace (c : Char) : Bool :=
  c = ' ' || c = '\t' || c = '\n' || c = '\x0d' || c = '\x0c' || c = '\x0b'

/-- Scanning state for the whitespace-collapsing pass: `normal` outside any
whitespace, `oneSpace c` after exactly one whitespace character `c` (not yet
known to be part of a run), `inRun` inside a run whose single replacement
space has already been emitted. -/
inductive SqState : Type
  | normal : SqState
  | oneSpace : Char → SqState
  | inRun : SqState

/-- Left-to-right scan implementing `re.sub("\\s\\s+", " ", s)`: every maximal
run of two or more whitespace characters becomes one space; a lone whitespace
character is kept as itself. -/
def squashGo : List Char → SqState → List Char
  | [], st =>
    match st with
    | .oneSpace c => [c]
    | _ => []
  | c :: rest, .normal =>
    if isPySpace c then squashGo rest (.oneSpace c) else c :: squashGo rest .normal
  | c :: rest, .oneSpace s =>
    if isPySpace c then ' ' :: squashGo rest .inRun
    else s :: c :: squashGo rest .normal
  | c :: rest, .inRun =>
    if isPySpace c then squashGo rest .inRun else c :: squashGo rest .normal

/-- The whitespace normalization `re.sub("\\s\\s+", " ", joined_query)` used at
the end of `DeclarativeBase._construct_query`. -/
def squashWhitespace (s : String) : String :=
  ⟨squashGo s.data .normal⟩

/-- Boolean test that `n` is a prefix of the second list (Python string
scanning helper). -/
def beginsWith : List Char → List Char → Bool
  | [], _ => true
  | _ :: _, [] => false
  | a :: as, b :: bs => a = b && beginsWith as bs

/-- Boolean substring test on char lists. -/
def containsSub (n : List Char) : List Char → Bool
  | [] => beginsWith n []
  | h :: t => beginsWith n (h :: t) || containsSub n t

/-- Python's `needle in haystack` on strings, as used by
`add_custom_cypher` for `" RETURN " in custom_cypher`. -/
def py_in (needle hay : String) : Bool :=
  containsSub needle.data hay.data

/-- Labels argument accepted by `node`/`to`/`from_`: a single string, a list
of strings, or `None` (Python `Union[str, List[str], None]`). -/
inductive CypherLabels : Type
  | strL : String → CypherLabels
  | listL : List String → CypherLabels
  | noneL : CypherLabels

/-- Values accepted in keyword-argument property positions and as the `value`
of the `where` family. -/
inductive CypherValue : Type
  | intV : Int → CypherValue
  | strV : String → CypherValue
  | boolV : Bool → CypherValue

/-- Modelled from the spec: the Literal Serialization collaborator's
`valueToText(value) -> string` (`to_cypher_value` lives in
`gqlalchemy/utilities.py`, which is not part of the sources here); integers
print in decimal, strings are quoted. -/
def to_cypher_value : CypherValue → String
  | .intV n => toString n
  | .strV s => "'" ++ s ++ "'"
  | .boolV b => if b then "True" else "False"

/-- Modelled from the spec: the Literal Serialization collaborator's
`labelsToText(one label or ordered list of labels or none) -> string`
(`to_cypher_labels` of `gqlalchemy/utilities.py` is not part of the sources
here); a label renders as `:Label`, empty input renders as the empty string,
matching the spec's examples `(n:Person)`, `(a:X)`, `[:REL]`. -/
def to_cypher_labels : CypherLabels → String
  | .strL s => if s = "" then "" else ":" ++ s
  | .listL ls => if ls.isEmpty then "" else ":" ++ String.intercalate ":" ls
  | .noneL => ""

/-- Modelled from the spec: the Literal Serialization collaborator's
`propertiesToText(mapping of name -> value) -> string` (`to_cypher_properties`
of `gqlalchemy/utilities.py` is not part of the sources here); the empty
mapping renders as the empty string. -/
def to_cypher_properties (props : List (String × CypherValue)) : String :=
  if props.isEmpty then ""
  else "\x7b" ++ String.intercalate ", " (props.map fun kv => kv.1 ++ ": " ++ to_cypher_value kv.2) ++ "\x7d"

/-- Modelled from the spec: a domain graph-node object exposing its stored
label set and property mapping (`gqlalchemy/models.py` is not part of the
sources here), used by the `node=` input mode of `DeclarativeBase.node`. -/
structure DomainNode : Type where
  labels : List String
  properties : List (String × CypherValue)

/-- Modelled from the spec: a domain relationship object exposing its stored
type and property mapping (`gqlalchemy/models.py` is not part of the sources
here), used by the `relationship=` input mode of `to`/`from_`. -/
structure DomainRelationship : Type where
  type_ : String
  properties : List (String × CypherValue)

/-- The `InvalidMatchChainException` raised by `node`/`to`/`from_` when the
linking validator rejects the append (the spec's `InvalidChainError`). -/
structure InvalidMatchChainException : Type where

/-- The closed variant model of `PartialQuery` subclasses: one constructor per
concrete subclass, carrying exactly the attributes the subclass stores. -/
inductive PartialQuery : Type
  | loadCsv : String → Bool → String → PartialQuery
  | matchQ : Bool → PartialQuery
  | merge : PartialQuery
  | create : PartialQuery
  | call : String → Option String → PartialQuery
  | whereCond : String → String → PartialQuery
  | node : Option String → Option String → Option String → PartialQuery
  | edge : Option String → Option String → Option String → Bool → Bool → PartialQuery
  | unwind : String → String → PartialQuery
  | with_ : List (String × String) → PartialQuery
  | union : Bool → PartialQuery
  | delete : List String → Bool → PartialQuery
  | remove : List String → PartialQuery
  | yield_ : List (String × String) → PartialQuery
  | return_ : List (String × String) → PartialQuery
  | orderBy : String → PartialQuery
  | limit : String → PartialQuery
  | skip : String → PartialQuery
  | addString : String → PartialQuery
deriving DecidableEq

/-- The `type` discriminant each subclass passes to `PartialQuery.__init__`
(`DeclarativeBaseTypes`); note the source gives `AddStringPartialQuery` the
`SKIP` type, and every `WhereConditionPartialQuery` the `WHERE` type. -/
def PartialQuery.ptype : PartialQuery → String
  | .loadCsv _ _ _ => "LOAD_CSV"
  | .matchQ _ => "MATCH"
  | .merge => "MERGE"
  | .create => "CREATE"
  | .call _ _ => "CALL"
  | .whereCond _ _ => "WHERE"
  | .node _ _ _ => "NODE"
  | .edge _ _ _ _ _ => "EDGE"
  | .unwind _ _ => "UNWIND"
  | .with_ _ => "WITH"
  | .union _ => "UNION"
  | .delete _ _ => "DELETE"
  | .remove _ => "REMOVE"
  | .yield_ _ => "YIELD"
  | .return_ _ => "RETURN"
  | .orderBy _ => "ORDER_BY"
  | .limit _ => "LIMIT"
  | .skip _ => "SKIP"
  | .addString _ => "SKIP"

/-- The string coalescing of the `variable`/`labels`/`properties` properties
of `NodePartialQuery`/`EdgePartialQuery`: `x if x is not None else ""`. -/
def optStr (o : Option String) : String := o.getD ""

/-- `dict_to_alias_statement` (lines 226-232): each `(key, value)` entry emits
`key AS value` when `value != "" and key != value`, else `key`; entries are
joined with `", "` in mapping insertion order. -/
def dict_to_alias_statement (aliasDict : List (String × String)) : String :=
  String.intercalate ", "
    (aliasDict.map fun kv => if kv.2 ≠ "" ∧ kv.1 ≠ kv.2 then kv.1 ++ " AS " ++ kv.2 else kv.1)

/-- `NodePartialQuery.construct_query`:
`f"({variable}{labels}{' ' + properties if properties else ''})"`. -/
def nodeRender (var labels properties : Option String) : String :=
  "(" ++ optStr var ++ optStr labels ++
    (if optStr properties ≠ "" then " " ++ optStr properties else "") ++ ")"

/-- `EdgePartialQuery.construct_query`: wraps `variable+labels+properties`
with `-[...]-`, `<-[...]-` or `-[...]->` according to `directed` and `_from`. -/
def edgeRender (var labels properties : Option String) (directed from_ : Bool) : String :=
  let inner := optStr var ++ optStr labels ++ optStr properties
  if ¬directed then "-[" ++ inner ++ "]-"
  else if from_ then "<-[" ++ inner ++ "]-"
  else "-[" ++ inner ++ "]->"

/-- The `construct_query` method of each `PartialQuery` subclass. -/
def PartialQuery.construct_query : PartialQuery → String
  | .loadCsv path header row =>
      " LOAD CSV FROM '" ++ path ++ "' " ++ (if header then "WITH" else "NO") ++
        " HEADER AS " ++ row ++ " "
  | .matchQ opt => if opt then " OPTIONAL MATCH " else " MATCH "
  | .merge => " MERGE "
  | .create => " CREATE "
  | .call procedure arguments => " CALL " ++ procedure ++ "(" ++ optStr arguments ++ ") "
  | .whereCond keyword query => " " ++ keyword ++ " " ++ query ++ " "
  | .node v l p => nodeRender v l p
  | .edge v l p directed from_ => edgeRender v l p directed from_
  | .unwind listExpression var => " UNWIND " ++ listExpression ++ " AS " ++ var ++ " "
  | .with_ results =>
      if results.length = 0 then " WITH * "
      else " WITH " ++ dict_to_alias_statement results ++ " "
  | .union includeDuplicates => " UNION" ++ (if includeDuplicates then " ALL" else "") ++ " "
  | .delete variableExpressions detach =>
      " " ++ (if detach then "DETACH" else "") ++ " DELETE " ++
        String.intercalate ", " variableExpressions ++ " "
  | .remove items => " REMOVE " ++ String.intercalate ", " items ++ " "
  | .yield_ results =>
      if results.length = 0 then " YIELD * "
      else " YIELD " ++ dict_to_alias_statement results ++ " "
  | .return_ results =>
      if results.length = 0 then " RETURN * "
      else " RETURN " ++ dict_to_alias_statement results ++ " "
  | .orderBy properties => " ORDER BY " ++ properties ++ " "
  | .limit integerExpression => " LIMIT " ++ integerExpression ++ " "
  | .skip integerExpression => " SKIP " ++ integerExpression ++ " "
  | .addString customCypher => customCypher

/-- State of a `DeclarativeBase` builder: the ordered segment sequence
`self._query` and the result-mode flag `self._fetch_results` (the connection
reference is modelled at the execution facade, see `ExecCall`). -/
structure DeclarativeBase : Type where
  query : List PartialQuery
  fetch_results : Bool
deriving DecidableEq

/-- `DeclarativeBase.__init__`: empty segment sequence, flag false. -/
def DeclarativeBase.init : DeclarativeBase :=
  { query := [], fetch_results := false }

/-- `DeclarativeBase._is_linking_valid_with_query`:
`len(self._query) == 0 or self._query[-1].type != match_type`. -/
def DeclarativeBase.is_linking_valid_with_query (st : DeclarativeBase) (match_type : String) : Bool :=
  st.query.isEmpty ||
    (match st.query.getLast? with
     | Option.none => true
     | Option.some p => p.ptype != match_type)

/-- `DeclarativeBase.match`: appends `MatchPartialQuery(optional)`. -/
def DeclarativeBase.match_ (st : DeclarativeBase) (optional : Bool) : DeclarativeBase :=
  { st with query := st.query ++ [.matchQ optional] }

/-- `DeclarativeBase.merge`: appends `MergePartialQuery()`. -/
def DeclarativeBase.merge (st : DeclarativeBase) : DeclarativeBase :=
  { st with query := st.query ++ [.merge] }

/-- `DeclarativeBase.create`: appends `CreatePartialQuery()`. -/
def DeclarativeBase.create (st : DeclarativeBase) : DeclarativeBase :=
  { st with query := st.query ++ [.create] }

/-- `DeclarativeBase.call`: appends `CallPartialQuery(procedure, arguments)`. -/
def DeclarativeBase.call (st : DeclarativeBase) (procedure : String) (arguments : Option String) :
    DeclarativeBase :=
  { st with query := st.query ++ [.call procedure arguments] }

/-- `DeclarativeBase.node`: checks the linking validator for `NODE` and raises
`InvalidMatchChainException` on failure, before any serialization or append;
otherwise serializes labels/properties (from kwargs or from the domain node
object) and appends the `NodePartialQuery`. -/
def DeclarativeBase.node (st : DeclarativeBase) (labels : CypherLabels) (var : Option String)
    (nodeObj : Option DomainNode) (kwargs : List (String × CypherValue)) :
    Except InvalidMatchChainException DeclarativeBase :=
  if st.is_linking_valid_with_query "NODE" then
    let labels_str :=
      match nodeObj with
      | Option.none => to_cypher_labels labels
      | Option.some n => to_cypher_labels (.listL n.labels)
    let properties_str :=
      match nodeObj with
      | Option.none => to_cypher_properties kwargs
      | Option.some n => to_cypher_properties n.properties
    .ok { st with query := st.query ++ [.node var (some labels_str) (some properties_str)] }
  else
    .error {}

/-- Python truthiness coercion `bool(directed)` for the `Optional[bool]`
`directed` parameter of `to`/`from_` (`None` coerces to `False`). -/
def pybool : Option Bool → Bool
  | none => false
  | some b => b

/-- `DeclarativeBase.to`: checks the linking validator for `EDGE`, raising on
failure, then appends an `EdgePartialQuery` with `from_=False`. -/
def DeclarativeBase.to (st : DeclarativeBase) (edge_label : CypherLabels) (directed : Option Bool)
    (var : Option String) (relationship : Option DomainRelationship)
    (kwargs : List (String × CypherValue)) :
    Except InvalidMatchChainException DeclarativeBase :=
  if st.is_linking_valid_with_query "EDGE" then
    let type_str :=
      match relationship with
      | Option.none => to_cypher_labels edge_label
      | Option.some r => to_cypher_labels (.strL r.type_)
    let properties_str :=
      match relationship with
      | Option.none => to_cypher_properties kwargs
      | Option.some r => to_cypher_properties r.properties
    .ok { st with
          query := st.query ++ [.edge var (some type_str) (some properties_str) (pybool directed) false] }
  else
    .error {}

/-- `DeclarativeBase.from_`: checks the linking validator for `EDGE`, raising
on failure, then appends an `EdgePartialQuery` with `from_=True`. -/
def DeclarativeBase.from_ (st : DeclarativeBase) (edge_label : CypherLabels) (directed : Option Bool)
    (var : Option String) (relationship : Option DomainRelationship)
    (kwargs : List (String × CypherValue)) :
    Except InvalidMatchChainException DeclarativeBase :=
  if st.is_linking_valid_with_query "EDGE" then
    let labels_str :=
      match relationship with
      | Option.none => to_cypher_labels edge_label
      | Option.some r => to_cypher_labels (.strL r.type_)
    let properties_str :=
      match relationship with
      | Option.none => to_cypher_properties kwargs
      | Option.some r => to_cypher_properties r.properties
    .ok { st with
          query := st.query ++ [.edge var (some labels_str) (some properties_str) (pybool directed) true] }
  else
    .error {}

/-- The shared body of the `where` family: separator `""` for the `:` operator
and `" "` otherwise, then `separator.join([item, operator, to_cypher_value(value)])`
wrapped in a `WhereConditionPartialQuery` with the given keyword. -/
def whereBody (keyword item operator : String) (value : CypherValue) : PartialQuery :=
  let separator := if operator = ":" then "" else " "
  .whereCond keyword (String.intercalate separator [item, operator, to_cypher_value value])

/-- `DeclarativeBase.where`. -/
def DeclarativeBase.where_ (st : DeclarativeBase) (item operator : String) (value : CypherValue) :
    DeclarativeBase :=
  { st with query := st.query ++ [whereBody "WHERE" item operator value] }

/-- `DeclarativeBase.and_where`. -/
def DeclarativeBase.and_where (st : DeclarativeBase) (item operator : String) (value : CypherValue) :
    DeclarativeBase :=
  { st with query := st.query ++ [whereBody "AND" item operator value] }

/-- `DeclarativeBase.or_where`. -/
def DeclarativeBase.or_where (st : DeclarativeBase) (item operator : String) (value : CypherValue) :
    DeclarativeBase :=
  { st with query := st.query ++ [whereBody "OR" item operator value] }

/-- `DeclarativeBase.xor_where`. -/
def DeclarativeBase.xor_where (st : DeclarativeBase) (property operator : String) (value : CypherValue) :
    DeclarativeBase :=
  { st with query := st.query ++ [whereBody "XOR" property operator value] }

/-- `DeclarativeBase.unwind`. -/
def DeclarativeBase.unwind (st : DeclarativeBase) (list_expression var : String) :
    DeclarativeBase :=
  { st with query := st.query ++ [.unwind list_expression var] }

/-- `DeclarativeBase.with_`. -/
def DeclarativeBase.with_ (st : DeclarativeBase) (results : List (String × String)) :
    DeclarativeBase :=
  { st with query := st.query ++ [.with_ results] }

/-- `DeclarativeBase.union`. -/
def DeclarativeBase.union (st : DeclarativeBase) (include_duplicates : Bool) : DeclarativeBase :=
  { st with query := st.query ++ [.union include_duplicates] }

/-- `DeclarativeBase.delete`. -/
def DeclarativeBase.delete (st : DeclarativeBase) (variable_expressions : List String) (detach : Bool) :
    DeclarativeBase :=
  { st with query := st.query ++ [.delete variable_expressions detach] }

/-- `DeclarativeBase.remove`. -/
def DeclarativeBase.remove (st : DeclarativeBase) (items : List String) : DeclarativeBase :=
  { st with query := st.query ++ [.remove items] }

/-- `DeclarativeBase.yield_`. -/
def DeclarativeBase.yield_ (st : DeclarativeBase) (results : List (String × String)) :
    DeclarativeBase :=
  { st with query := st.query ++ [.yield_ results] }

/-- `DeclarativeBase.return_`: appends the `ReturnPartialQuery` and sets
`self._fetch_results = True`. -/
def DeclarativeBase.return_ (st : DeclarativeBase) (results : List (String × String)) :
    DeclarativeBase :=
  { st with query := st.query ++ [.return_ results], fetch_results := true }

/-- `DeclarativeBase.order_by`. -/
def DeclarativeBase.order_by (st : DeclarativeBase) (properties : String) : DeclarativeBase :=
  { st with query := st.query ++ [.orderBy properties] }

/-- `DeclarativeBase.limit`. -/
def DeclarativeBase.limit (st : DeclarativeBase) (integer_expression : String) : DeclarativeBase :=
  { st with query := st.query ++ [.limit integer_expression] }

/-- `DeclarativeBase.skip`. -/
def DeclarativeBase.skip (st : DeclarativeBase) (integer_expression : String) : DeclarativeBase :=
  { st with query := st.query ++ [.skip integer_expression] }

/-- `DeclarativeBase.add_custom_cypher`: appends an `AddStringPartialQuery`
and sets the flag when `" RETURN " in custom_cypher`. -/
def DeclarativeBase.add_custom_cypher (st : DeclarativeBase) (custom_cypher : String) :
    DeclarativeBase :=
  { st with
    query := st.query ++ [.addString custom_cypher],
    fetch_results := st.fetch_results || py_in " RETURN " custom_cypher }

/-- `DeclarativeBase.load_csv`. -/
def DeclarativeBase.load_csv (st : DeclarativeBase) (path : String) (header : Bool) (row : String) :
    DeclarativeBase :=
  { st with query := st.query ++ [.loadCsv path header row] }

/-- `DeclarativeBase._construct_query`: concatenate, seeded by `""`, every
segment's `construct_query()` in sequence order, then collapse whitespace
runs (`re.sub("\\s\\s+", " ", joined_query)`). -/
def DeclarativeBase.construct_query (st : DeclarativeBase) : String :=
  squashWhitespace (String.join ("" :: st.query.map PartialQuery.construct_query))

/-- Rendering viewed as an operation on the builder: `_construct_query`
builds its own local list and returns the joined string, leaving
`self._query` (and the whole builder state) untouched. -/
def construct_query_run (st : DeclarativeBase) : String × DeclarativeBase :=
  (st.construct_query, st)

/-- A call made to the execution collaborator: `fetch q` is
`connection.execute_and_fetch(q)` (streaming), `fire q` is
`connection.execute(q)` (fire-and-forget). -/
inductive ExecCall : Type
  | fetch : String → ExecCall
  | fire : String → ExecCall
deriving DecidableEq

/-- `DeclarativeBase.execute`: renders, then dispatches on
`self._fetch_results` between the streaming and fire-and-forget calls. -/
def DeclarativeBase.execute (st : DeclarativeBase) : ExecCall :=
  if st.fetch_results then .fetch st.construct_query else .fire st.construct_query

/-- The collaborator call `get_single` makes: it always invokes
`self._connection.execute_and_fetch(query)` on the rendered statement. -/
def DeclarativeBase.get_single_call (st : DeclarativeBase) : ExecCall :=
  .fetch st.construct_query

/-- Possible returns of `get_single` once the fetched rows are known:
`retNone` is Python `None` (zero rows), `retVal v` is `result[retrieve]`,
`retRow r` is the row returned as-is (the falsy-dict branch), `keyError` is
the lookup failure on a row missing the field. -/
inductive GSOut (α : Type) : Type
  | retNone : GSOut α
  | retVal : α → GSOut α
  | retRow : List (String × α) → GSOut α
  | keyError : GSOut α
deriving DecidableEq

/-- Row handling of `DeclarativeBase.get_single` applied to the sequence the
collaborator produced: `result = next(rows, None)`; `if result:` (dict
truthiness, i.e. non-empty) then `result[retrieve]` else `return result`. -/
def get_single_rows {α : Type} (rows : List (List (String × α))) (retrieve : String) : GSOut α :=
  match rows.head? with
  | Option.none => .retNone
  | Option.some r =>
    if r.length ≠ 0 then
      match List.lookup retrieve r with
      | Option.some v => .retVal v
      | Option.none => .keyError
    else .retRow r

/-- One chaining call on the assembler, one constructor per public chaining
method of `DeclarativeBase`. -/
inductive ChainOp : Type
  | opMatch : Bool → ChainOp
  | opMerge : ChainOp
  | opCreate : ChainOp
  | opCall : String → Option String → ChainOp
  | opNode : CypherLabels → Option String → Option DomainNode → List (String × CypherValue) → ChainOp
  | opTo : CypherLabels → Option Bool → Option String → Option DomainRelationship →
      List (String × CypherValue) → ChainOp
  | opFrom : CypherLabels → Option Bool → Option String → Option DomainRelationship →
      List (String × CypherValue) → ChainOp
  | opWhere : String → String → CypherValue → ChainOp
  | opAndWhere : String → String → CypherValue → ChainOp
  | opOrWhere : String → String → CypherValue → ChainOp
  | opXorWhere : String → String → CypherValue → ChainOp
  | opUnwind : String → String → ChainOp
  | opWith : List (String × String) → ChainOp
  | opUnion : Bool → ChainOp
  | opDelete : List String → Bool → ChainOp
  | opRemove : List String → ChainOp
  | opYield : List (String × String) → ChainOp
  | opReturn : List (String × String) → ChainOp
  | opOrderBy : String → ChainOp
  | opLimit : String → ChainOp
  | opSkip : String → ChainOp
  | opAddCustomCypher : String → ChainOp
  | opLoadCsv : String → Bool → String → ChainOp

/-- Whether the chaining call is one of the three graph-pattern appends
(`node`, `to`, `from_`) that consult the linking validator. -/
def isNodeEdgeOp : ChainOp → Bool
  | .opNode _ _ _ _ => true
  | .opTo _ _ _ _ _ => true
  | .opFrom _ _ _ _ _ => true
  | _ => false

/-- Dispatch of one chaining call to the corresponding method; `node`, `to`
and `from_` may raise, every other method always succeeds. -/
def applyChainOpE (st : DeclarativeBase) : ChainOp → Except InvalidMatchChainException DeclarativeBase
  | .opMatch o => .ok (st.match_ o)
  | .opMerge => .ok st.merge
  | .opCreate => .ok st.create
  | .opCall p a => .ok (st.call p a)
  | .opNode l v no kw => st.node l v no kw
  | .opTo el d v r kw => st.to el d v r kw
  | .opFrom el d v r kw => st.from_ el d v r kw
  | .opWhere i o v => .ok (st.where_ i o v)
  | .opAndWhere i o v => .ok (st.and_where i o v)
  | .opOrWhere i o v => .ok (st.or_where i o v)
  | .opXorWhere i o v => .ok (st.xor_where i o v)
  | .opUnwind le v => .ok (st.unwind le v)
  | .opWith r => .ok (st.with_ r)
  | .opUnion d => .ok (st.union d)
  | .opDelete ve d => .ok (st.delete ve d)
  | .opRemove items => .ok (st.remove items)
  | .opYield r => .ok (st.yield_ r)
  | .opReturn r => .ok (st.return_ r)
  | .opOrderBy p => .ok (st.order_by p)
  | .opLimit ie => .ok (st.limit ie)
  | .opSkip ie => .ok (st.skip ie)
  | .opAddCustomCypher c => .ok (st.add_custom_cypher c)
  | .opLoadCsv p h r => .ok (st.load_csv p h r)

/-- Post-state of one chaining call: on a raised `InvalidMatchChainException`
the exception propagates before any mutation, so the builder keeps its
previous state. -/
def applyChainOp (st : DeclarativeBase) (op : ChainOp) : DeclarativeBase :=
  match applyChainOpE st op with
  | .ok st' => st'
  | .error _ => st

/-- Whether an `Except` result is a raised exception. -/
def exceptRaised {ε α : Type} : Except ε α → Bool
  | .error _ => true
  | .ok _ => false

/-- Clause kinds that set the result-mode flag: a `return_` append, or an
`add_custom_cypher` whose text contains `" RETURN "`. -/
def sets_fetch : ChainOp → Bool
  | .opReturn _ => true
  | .opAddCustomCypher c => py_in " RETURN " c
  | _ => false

/-- `QueryBuilder.__init__`: same as the base constructor. -/
def QueryBuilder.init : DeclarativeBase := DeclarativeBase.init

/-- The `Create` preset builder: base constructor, then append
`CreatePartialQuery()`. -/
def Create.init : DeclarativeBase :=
  { DeclarativeBase.init with query := DeclarativeBase.init.query ++ [.create] }

/-- The `Match` preset builder: base constructor, then append
`MatchPartialQuery(optional)`. -/
def Match.init (optional : Bool) : DeclarativeBase :=
  { DeclarativeBase.init with query := DeclarativeBase.init.query ++ [.matchQ optional] }

/-- The `Merge` preset builder: base constructor, then append
`MergePartialQuery()`. -/
def Merge.init : DeclarativeBase :=
  { DeclarativeBase.init with query := DeclarativeBase.init.query ++ [.merge] }

/-- The `Call` preset builder: base constructor, then append
`CallPartialQuery(procedure, arguments)`. -/
def Call.init (procedure : String) (arguments : Option String) : DeclarativeBase :=
  { DeclarativeBase.init with query := DeclarativeBase.init.query ++ [.call procedure arguments] }

/-- The `Unwind` preset builder: base constructor, then append
`UnwindPartialQuery(list_expression, variable)`. -/
def Unwind.init (list_expression var : String) : DeclarativeBase :=
  { DeclarativeBase.init with query := DeclarativeBase.init.query ++ [.unwind list_expression var] }

/-- The `With` preset builder: base constructor, then append
`WithPartialQuery(results)`. -/
def With.init (results : List (String × String)) : DeclarativeBase :=
  { DeclarativeBase.init with query := DeclarativeBase.init.query ++ [.with_ results] }

/-- The concrete chain of the end-to-end example
`match().node(labels="Person", variable="n").where("n.age", ">", 30).return_({"n.name": ""})`,
with the fallible `node` call kept in the `Except` monad. -/
def exampleChainE : Except InvalidMatchChainException DeclarativeBase :=
  ((DeclarativeBase.init.match_ false).node (.strL "Person") (some "n") none []).map
    fun st => (st.where_ "n.age" ">" (.intV 30)).return_ [("n.name", "")]

/-- The state reached by the end-to-end example chain. -/
def exampleState : DeclarativeBase :=
  match exampleChainE with
  | .ok st => st
  | .error _ => DeclarativeBase.init

end GQL

namespace GQL

/-- The linking validator returns `false` exactly when the stored segment
sequence is non-empty and its last segment carries the probed type
discriminant. -/
theorem linking_valid_false_iff (st : DeclarativeBase) (t : String) :
    st.is_linking_valid_with_query t = false ↔
      st.query.getLast?.map PartialQuery.ptype = some t := by
  unfold DeclarativeBase.is_linking_valid_with_query
  cases h : st.query.getLast? with
  | none =>
    have hq : st.query = [] := List.getLast?_eq_none_iff.mp h
    simp [hq]
  | some p =>
    have hq : st.query ≠ [] := by
      intro hn
      rw [hn] at h
      simp at h
    simp [List.isEmpty_iff, hq, bne]

/-- One chaining call changes the result-mode flag exactly by or-ing in
`sets_fetch`: only `return_` and a custom fragment containing `" RETURN "`
can turn it on, and nothing turns it off. -/
theorem applyChainOp_fetch (st : DeclarativeBase) (op : ChainOp) :
    (applyChainOp st op).fetch_results = (st.fetch_results || sets_fetch op) := by
  cases op
  case opNode l v no kw =>
    by_cases h : st.is_linking_valid_with_query "NODE" <;>
      simp [applyChainOp, applyChainOpE, DeclarativeBase.node, h, sets_fetch]
  case opTo el d v r kw =>
    by_cases h : st.is_linking_valid_with_query "EDGE" <;>
      simp [applyChainOp, applyChainOpE, DeclarativeBase.to, h, sets_fetch]
  case opFrom el d v r kw =>
    by_cases h : st.is_linking_valid_with_query "EDGE" <;>
      simp [applyChainOp, applyChainOpE, DeclarativeBase.from_, h, sets_fetch]
  all_goals
    simp [applyChainOp, applyChainOpE, sets_fetch, DeclarativeBase.match_,
      DeclarativeBase.merge, DeclarativeBase.create, DeclarativeBase.call,
      DeclarativeBase.where_, DeclarativeBase.and_where, DeclarativeBase.or_where,
      DeclarativeBase.xor_where, DeclarativeBase.unwind, DeclarativeBase.with_,
      DeclarativeBase.union, DeclarativeBase.delete, DeclarativeBase.remove,
      DeclarativeBase.yield_, DeclarativeBase.return_, DeclarativeBase.order_by,
      DeclarativeBase.limit, DeclarativeBase.skip, DeclarativeBase.add_custom_cypher,
      DeclarativeBase.load_csv]

/-- C1: `node` raises `InvalidMatchChainException` exactly when the stored
segment sequence is non-empty and its last segment has type `NODE`, and
`to`/`from_` raise exactly when the last segment has type `EDGE`
(`Option.map` of `getLast?` encodes both non-emptiness and the kind of the
last segment); a raised append leaves the builder state unchanged so the
assembler stays usable; every chaining call other than `node`/`to`/`from_`
never consults the validator and always succeeds. -/
theorem claim_linking_validator :
    (∀ (st : DeclarativeBase) (l : CypherLabels) (v : Option String)
        (no : Option DomainNode) (kw : List (String × CypherValue)),
      exceptRaised (st.node l v no kw) = true ↔
        st.query.getLast?.map PartialQuery.ptype = some "NODE") ∧
    (∀ (st : DeclarativeBase) (el : CypherLabels) (d : Option Bool) (v : Option String)
        (r : Option DomainRelationship) (kw : List (String × CypherValue)),
      exceptRaised (st.to el d v r kw) = true ↔
        st.query.getLast?.map PartialQuery.ptype = some "EDGE") ∧
    (∀ (st : DeclarativeBase) (el : CypherLabels) (d : Option Bool) (v : Option String)
        (r : Option DomainRelationship) (kw : List (String × CypherValue)),
      exceptRaised (st.from_ el d v r kw) = true ↔
        st.query.getLast?.map PartialQuery.ptype = some "EDGE") ∧
    (∀ (st : DeclarativeBase) (op : ChainOp),
      exceptRaised (applyChainOpE st op) = true → applyChainOp st op = st) ∧
    (∀ (st : DeclarativeBase) (op : ChainOp), isNodeEdgeOp op = false →
      applyChainOpE st op = .ok (applyChainOp st op)) := by
  refine ⟨?_, ?_, ?_, ?_, ?_⟩
  · intro st l v no kw
    have hx : exceptRaised (st.node l v no kw) = !st.is_linking_valid_with_query "NODE" := by
      by_cases h : st.is_linking_valid_with_query "NODE" <;>
        simp [DeclarativeBase.node, h, exceptRaised]
    rw [hx]
    simp only [Bool.not_eq_true']
    exact linking_valid_false_iff st "NODE"
  · intro st el d v r kw
    have hx : exceptRaised (st.to el d v r kw) = !st.is_linking_valid_with_query "EDGE" := by
      by_cases h : st.is_linking_valid_with_query "EDGE" <;>
        simp [DeclarativeBase.to, h, exceptRaised]
    rw [hx]
    simp only [Bool.not_eq_true']
    exact linking_valid_false_iff st "EDGE"
  · intro st el d v r kw
    have hx : exceptRaised (st.from_ el d v r kw) = !st.is_linking_valid_with_query "EDGE" := by
      by_cases h : st.is_linking_valid_with_query "EDGE" <;>
        simp [DeclarativeBase.from_, h, exceptRaised]
    rw [hx]
    simp only [Bool.not_eq_true']
    exact linking_valid_false_iff st "EDGE"
  · intro st op h
    cases op
    case opNode l v no kw =>
      by_cases hv : st.is_linking_valid_with_query "NODE"
      · simp [applyChainOpE, DeclarativeBase.node, hv, exceptRaised] at h
      · simp [applyChainOp, applyChainOpE, DeclarativeBase.node, hv]
    case opTo el d v r kw =>
      by_cases hv : st.is_linking_valid_with_query "EDGE"
      · simp [applyChainOpE, DeclarativeBase.to, hv, exceptRaised] at h
      · simp [applyChainOp, applyChainOpE, DeclarativeBase.to, hv]
    case opFrom el d v r kw =>
      by_cases hv : st.is_linking_valid_with_query "EDGE"
      · simp [applyChainOpE, DeclarativeBase.from_, hv, exceptRaised] at h
      · simp [applyChainOp, applyChainOpE, DeclarativeBase.from_, hv]
    all_goals simp [applyChainOpE, exceptRaised] at h
  · intro st op hop
    cases op <;> first | rfl | simp [isNodeEdgeOp] at hop

/-- Witness for C1: with a node segment last, a second `node` append raises
and leaves the state unchanged; a `merge` append never raises. -/
theorem claim_linking_validator_witness :
    exceptRaised ((DeclarativeBase.mk [PartialQuery.node none none none] false).node
        (.strL "X") none none []) = true ∧
    applyChainOp (DeclarativeBase.mk [PartialQuery.node none none none] false)
        (.opNode (.strL "X") none none []) =
      DeclarativeBase.mk [PartialQuery.node none none none] false ∧
    applyChainOpE DeclarativeBase.init .opMerge =
      .ok (applyChainOp DeclarativeBase.init .opMerge) :=
  ⟨(claim_linking_validator.1 _ _ _ _ _).mpr rfl,
   claim_linking_validator.2.2.2.1 _ _ rfl,
   claim_linking_validator.2.2.2.2 _ _ rfl⟩

/-- C2 counterexample: the end-to-end example chain does NOT render to the
bare string `"MATCH (n:Person) WHERE n.age > 30 RETURN n.name"`; the
collapsing `re.sub("\\s\\s+", " ", ...)` only merges runs of two or more
whitespace characters, so one leading and one trailing space survive. -/
theorem claim_example_exact_text_fails :
    exampleState.construct_query ≠ "MATCH (n:Person) WHERE n.age > 30 RETURN n.name" := by
  decide

/-- C2 (amended): the example chain succeeds and renders to exactly
`" MATCH (n:Person) WHERE n.age > 30 RETURN n.name "` (the claimed text
surrounded by a single leading and trailing space), and `execute()` on it
takes the streaming `execute_and_fetch` path with that text. -/
theorem claim_example_render_and_streaming :
    exampleChainE = Except.ok exampleState ∧
    exampleState.construct_query = " MATCH (n:Person) WHERE n.age > 30 RETURN n.name " ∧
    exampleState.execute = ExecCall.fetch " MATCH (n:Person) WHERE n.age > 30 RETURN n.name " :=
  ⟨rfl, rfl, rfl⟩

/-- C3: the result-mode flag starts false, each chaining call or-s in exactly
`sets_fetch` (true only for a `return_` append or a custom fragment containing
`" RETURN "`), and once true it stays true across any further sequence of
chaining calls. -/
theorem claim_result_mode :
    DeclarativeBase.init.fetch_results = false ∧
    (∀ (st : DeclarativeBase) (op : ChainOp),
      (applyChainOp st op).fetch_results = (st.fetch_results || sets_fetch op)) ∧
    (∀ (st : DeclarativeBase) (ops : List ChainOp), st.fetch_results = true →
      (ops.foldl applyChainOp st).fetch_results = true) := by
  refine ⟨rfl, applyChainOp_fetch, ?_⟩
  intro st ops h
  induction ops generalizing st with
  | nil => simpa using h
  | cons op rest ih =>
    simp only [List.foldl_cons]
    exact ih _ (by rw [applyChainOp_fetch, h]; rfl)

/-- Witness for C3: after a `return_` append the flag is true, and it is still
true after further appends. -/
theorem claim_result_mode_witness :
    ((DeclarativeBase.init.return_ []).fetch_results = true) ∧
    (([ChainOp.opMatch false, ChainOp.opMerge].foldl applyChainOp
        (DeclarativeBase.init.return_ [])).fetch_results = true) :=
  ⟨rfl, claim_result_mode.2.2 _ _ rfl⟩

/-- C4: a node segment with empty variable, labels and properties renders as
`"()"`; with non-empty properties exactly one space separates
`variable+labels` from the properties block; with empty properties no space
is inserted and the render is `"(" + variable + labels + ")"`. -/
theorem claim_node_segment_render :
    ∀ v l p : Option String,
      ((optStr v = "" ∧ optStr l = "" ∧ optStr p = "") → nodeRender v l p = "()") ∧
      (optStr p ≠ "" →
        nodeRender v l p = "(" ++ optStr v ++ optStr l ++ " " ++ optStr p ++ ")") ∧
      (optStr p = "" → nodeRender v l p = "(" ++ optStr v ++ optStr l ++ ")") := by
  intro v l p
  refine ⟨?_, ?_, ?_⟩
  · rintro ⟨h1, h2, h3⟩
    simp only [nodeRender, h1, h2, h3]
    decide
  · intro h
    simp [nodeRender, h, String.append_assoc]
  · intro h
    simp [nodeRender, h]

/-- Witness for C4: the all-empty node segment renders as `"()"`. -/
theorem claim_node_segment_render_witness :
    (optStr none = "" ∧ optStr none = "" ∧ optStr none = "") ∧
    nodeRender none none none = "()" :=
  ⟨⟨rfl, rfl, rfl⟩, (claim_node_segment_render none none none).1 ⟨rfl, rfl, rfl⟩⟩

/-- C5: an edge segment wraps the inner `variable+labels+properties`
concatenation as `-[inner]-` when undirected (whatever `from_` is),
`<-[inner]-` when directed and pointing from, and `-[inner]->` when directed
and not pointing from. -/
theorem claim_edge_segment_render :
    ∀ (v l p : Option String) (directed from_ : Bool),
      (directed = false →
        edgeRender v l p directed from_ =
          "-[" ++ (optStr v ++ optStr l ++ optStr p) ++ "]-") ∧
      (directed = true → from_ = true →
        edgeRender v l p directed from_ =
          "<-[" ++ (optStr v ++ optStr l ++ optStr p) ++ "]-") ∧
      (directed = true → from_ = false →
        edgeRender v l p directed from_ =
          "-[" ++ (optStr v ++ optStr l ++ optStr p) ++ "]->") := by
  intro v l p directed from_
  refine ⟨?_, ?_, ?_⟩
  · intro h
    subst h
    simp [edgeRender]
  · intro h h2
    subst h
    subst h2
    simp [edgeRender]
  · intro h h2
    subst h
    subst h2
    simp [edgeRender]

/-- Witness for C5: the empty undirected edge renders as `-[]-`. -/
theorem claim_edge_segment_render_witness :
    edgeRender none none none false false =
      "-[" ++ (optStr none ++ optStr none ++ optStr none) ++ "]-" :=
  (claim_edge_segment_render none none none false false).1 rfl

/-- C6: With/Return/Yield segments with an empty results mapping render
exactly as `" KEYWORD * "`; otherwise entries are emitted in insertion order,
an entry rendering as its key alone when the alias is empty or equal to the
key and as `key AS alias` otherwise, joined by `", "`. -/
theorem claim_alias_statement_render :
    (∀ r : List (String × String), r = [] →
      PartialQuery.construct_query (.with_ r) = " WITH * " ∧
      PartialQuery.construct_query (.return_ r) = " RETURN * " ∧
      PartialQuery.construct_query (.yield_ r) = " YIELD * ") ∧
    (∀ r : List (String × String),
      dict_to_alias_statement r = String.intercalate ", "
        (r.map fun kv => if kv.2 = "" ∨ kv.1 = kv.2 then kv.1 else kv.1 ++ " AS " ++ kv.2)) ∧
    (∀ r : List (String × String), r ≠ [] →
      PartialQuery.construct_query (.with_ r) = " WITH " ++ dict_to_alias_statement r ++ " " ∧
      PartialQuery.construct_query (.return_ r) = " RETURN " ++ dict_to_alias_statement r ++ " " ∧
      PartialQuery.construct_query (.yield_ r) = " YIELD " ++ dict_to_alias_statement r ++ " ") := by
  refine ⟨?_, ?_, ?_⟩
  · rintro r rfl
    exact ⟨rfl, rfl, rfl⟩
  · intro r
    have hfun : (fun kv : String × String =>
          if kv.2 ≠ "" ∧ kv.1 ≠ kv.2 then kv.1 ++ " AS " ++ kv.2 else kv.1)
        = (fun kv : String × String =>
          if kv.2 = "" ∨ kv.1 = kv.2 then kv.1 else kv.1 ++ " AS " ++ kv.2) := by
      funext kv
      by_cases h1 : kv.2 = ""
      · simp [h1]
      · by_cases h2 : kv.1 = kv.2 <;> simp [h1, h2]
    unfold dict_to_alias_statement
    rw [hfun]
  · intro r hr
    have hlen : r.length ≠ 0 := by simpa [List.length_eq_zero] using hr
    refine ⟨?_, ?_, ?_⟩ <;> simp [PartialQuery.construct_query, hlen]

/-- Witness for C6: the empty mapping renders as `" RETURN * "` and a
key-alias pair with distinct non-empty alias renders with `AS`. -/
theorem claim_alias_statement_render_witness :
    PartialQuery.construct_query (.return_ ([] : List (String × String))) = " RETURN * " ∧
    PartialQuery.construct_query (.return_ [("a", "b")]) = " RETURN a AS b " := by
  refine ⟨(claim_alias_statement_render.1 [] rfl).2.1, ?_⟩
  rw [(claim_alias_statement_render.2.2 [("a", "b")] (by decide)).2.1]
  decide

/-- C7: `get_single` always issues the streaming `execute_and_fetch` call on
the rendered statement whatever the result-mode flag holds; its row handling
depends only on the first row of the produced sequence (it pulls at most one
row); when a row exists and holds a value at the requested field that value
is returned; and zero rows yield the absent sentinel `None` without
raising. -/
theorem claim_get_single_contract :
    (∀ st : DeclarativeBase, st.get_single_call = ExecCall.fetch st.construct_query) ∧
    (∀ (α : Type) (rows : List (List (String × α))) (f : String),
      get_single_rows rows f = get_single_rows (rows.take 1) f) ∧
    (∀ (α : Type) (rows : List (List (String × α))) (r : List (String × α)) (v : α) (f : String),
      rows.head? = some r → List.lookup f r = some v →
        get_single_rows rows f = GSOut.retVal v) ∧
    (∀ (α : Type) (f : String),
      get_single_rows ([] : List (List (String × α))) f = GSOut.retNone) := by
  refine ⟨fun st => rfl, ?_, ?_, fun α f => rfl⟩
  · intro α rows f
    cases rows with
    | nil => rfl
    | cons a as => rfl
  · intro α rows r v f hh hl
    cases rows with
    | nil => simp at hh
    | cons a as =>
      simp only [List.head?] at hh
      injection hh with hh
      subst hh
      have hne : a.length ≠ 0 := by
        intro hz
        rw [List.length_eq_zero] at hz
        subst hz
        simp [List.lookup] at hl
      simp [get_single_rows, hne, hl]

/-- Witness for C7: on a one-row sequence whose row maps `"a"` to `1`,
`get_single` returns that value. -/
theorem claim_get_single_contract_witness :
    ([[("a", (1 : Nat))]].head? = some [("a", 1)]) ∧
    (List.lookup "a" [("a", (1 : Nat))] = some 1) ∧
    get_single_rows [[("a", (1 : Nat))]] "a" = GSOut.retVal 1 :=
  ⟨rfl, rfl, claim_get_single_contract.2.2.1 Nat _ _ _ _ rfl rfl⟩

/-- C8: rendering is deterministic and idempotent and does not modify the
builder state: `_construct_query` leaves the segment sequence untouched and a
second render of the resulting state yields the identical string. -/
theorem claim_render_idempotent :
    ∀ st : DeclarativeBase,
      (construct_query_run st).2 = st ∧
      (construct_query_run ((construct_query_run st).2)).1 = (construct_query_run st).1 :=
  fun _ => ⟨rfl, rfl⟩

/-- C9: each preset builder constructs exactly the state an empty assembler
reaches after one call of the corresponding chaining method: a single
starting segment, result-mode flag false, and (being equal states) identical
behaviour under any further chaining, rendering and execution. -/
theorem claim_preset_builders :
    (∀ o : Bool, Match.init o = DeclarativeBase.init.match_ o ∧
      (Match.init o).query = [PartialQuery.matchQ o] ∧ (Match.init o).fetch_results = false) ∧
    (Merge.init = DeclarativeBase.init.merge ∧ Merge.init.query = [PartialQuery.merge] ∧
      Merge.init.fetch_results = false) ∧
    (Create.init = DeclarativeBase.init.create ∧ Create.init.query = [PartialQuery.create] ∧
      Create.init.fetch_results = false) ∧
    (∀ (p : String) (a : Option String), Call.init p a = DeclarativeBase.init.call p a ∧
      (Call.init p a).query = [PartialQuery.call p a] ∧ (Call.init p a).fetch_results = false) ∧
    (∀ le v : String, Unwind.init le v = DeclarativeBase.init.unwind le v ∧
      (Unwind.init le v).query = [PartialQuery.unwind le v] ∧
      (Unwind.init le v).fetch_results = false) ∧
    (∀ r : List (String × String), With.init r = DeclarativeBase.init.with_ r ∧
      (With.init r).query = [PartialQuery.with_ r] ∧ (With.init r).fetch_results = false) ∧
    (∀ (o : Bool) (ops : List ChainOp),
      List.foldl applyChainOp (Match.init o) ops =
        List.foldl applyChainOp (DeclarativeBase.init.match_ o) ops ∧
      (Match.init o).construct_query = (DeclarativeBase.init.match_ o).construct_query ∧
      (Match.init o).execute = (DeclarativeBase.init.match_ o).execute) :=
  ⟨fun _ => ⟨rfl, rfl, rfl⟩, ⟨rfl, rfl, rfl⟩, ⟨rfl, rfl, rfl⟩, fun _ _ => ⟨rfl, rfl, rfl⟩,
   fun _ _ => ⟨rfl, rfl, rfl⟩, fun _ => ⟨rfl, rfl, rfl⟩, fun _ _ => ⟨rfl, rfl, rfl⟩⟩

/-- C10: when the first fetched row is the empty mapping, `get_single` returns
that empty mapping itself (the falsy-dict branch) and never performs the
field lookup, so no lookup error and no field value can arise. -/
theorem claim_get_single_empty_first_row :
    ∀ (α : Type) (rest : List (List (String × α))) (f : String),
      get_single_rows (([] : List (String × α)) :: rest) f = GSOut.retRow [] ∧
      get_single_rows (([] : List (String × α)) :: rest) f ≠ GSOut.keyError ∧
      (∀ v : α, get_single_rows (([] : List (String × α)) :: rest) f ≠ GSOut.retVal v) := by
  intro α rest f
  have h : get_single_rows (([] : List (String × α)) :: rest) f = GSOut.retRow [] := rfl
  refine ⟨h, ?_, ?_⟩
  · rw [h]
    exact fun hc => GSOut.noConfusion hc
  · intro v
    rw [h]
    exact fun hc => GSOut.noConfusion hc

end GQL
